import Mathlib

/-!
Shallow embedding of `src/inpainting.py` (ImageInpaintingTool), an OpenCV
glue script: it loads an image, builds a circular mask at each click, calls
the external inpainting routine, and runs an interactive display loop.

External collaborators (the file system, `cv2.imread`, `cv2.circle`,
`cv2.inpaint`, the window/event system) are modelled abstractly: the
inpainting algorithm is an opaque parameter, and the drawing / decoding
primitives are modelled from the specification's description of them.
Python exceptions become an explicit error type; `print` calls become an
explicit list of emitted lines.
-/

namespace InpaintingTool

/-- A BGR image: a height × width pixel grid (8-bit, 3 channels).  Pixel
contents are carried only for identity; no claim inspects them. -/
structure Image where
  height : Nat
  width : Nat
  data : List (List (Nat × Nat × Nat))
deriving DecidableEq, Repr

/-- A single-channel mask grid: rows of 8-bit values. -/
abbrev Mask := List (List Nat)

/-- The Python exception kinds the program raises: `FileNotFoundError`
(PathNotFound) and `ValueError` (ImageDecodeFailure / InvalidMethod),
each carrying its message. -/
inductive PyError where
  | fileNotFoundError (msg : String)
  | valueError (msg : String)
deriving DecidableEq, Repr

/-- Printing a caught exception with `print(e)` shows its message. -/
def PyError.message : PyError → String
  | .fileNotFoundError m => m
  | .valueError m => m

/-- The two OpenCV inpainting algorithm identifiers. -/
inductive InpaintFlag where
  | INPAINT_TELEA
  | INPAINT_NS
deriving DecidableEq, Repr

/-- The opaque external inpainting routine `cv2.inpaint`:
(image, mask, inpaintRadius, flags) ↦ new image. -/
abbrev InpaintFn := Image → Mask → Nat → InpaintFlag → Image

/-- The file system / decoder environment seen through `os.path.exists`
and `cv2.imread` (which returns `None` on decode failure). -/
structure FileSystem where
  pathExists : String → Bool
  imread : String → Option Image

/-- Model of `ImageInpaintingTool._load_image`: raise `FileNotFoundError` if the
path does not exist, `ValueError` if `cv2.imread` cannot decode the file,
otherwise return the decoded image. -/
def _load_image (fs : FileSystem) (image_path : String) : Except PyError Image :=
  if ¬ fs.pathExists image_path then
    .error (.fileNotFoundError
      ("Error: The image path " ++ sQ image_path ++ " does not exist."))
  else
    match fs.imread image_path with
    | none => .error (.valueError
        "Error: Could not load the image. Ensure the file is a valid image format.")
    | some image => .ok image
where
  /-- Python f-string fragment `'{s}'`: the argument wrapped in single quotes. -/
  sQ (s : String) : String := "'" ++ s ++ "'"

/-- Python's `str.lower()`, modelled character-wise (exact on the ASCII
strings the method comparison concerns). -/
def py_lower (s : String) : String := ⟨s.data.map Char.toLower⟩

/-- Model of `ImageInpaintingTool._get_inpainting_flags`: case-insensitive mapping
of the method string to an OpenCV flag; any other string raises
`ValueError`. -/
def _get_inpainting_flags (method : String) : Except PyError InpaintFlag :=
  if py_lower method = "telea" then .ok .INPAINT_TELEA
  else if py_lower method = "ns" then .ok .INPAINT_NS
  else .error (.valueError "Invalid method. Choose 'telea' or 'ns'.")

/-- Model of `np.zeros(shape[:2], dtype=np.uint8)`: an all-zero h × w grid. -/
def np_zeros (h w : Nat) : Mask :=
  List.replicate h (List.replicate w 0)

/-- Whether pixel (row i, column j) lies in the filled circle of the given
radius centred at `center = (x, y)` (x a column, y a row). -/
def inDisk (center : Int × Int) (radius : Nat) (i j : Nat) : Bool :=
  ((j : Int) - center.1) ^ 2 + ((i : Int) - center.2) ^ 2 ≤ (radius : Int) ^ 2

/-- Map over a list together with the index of each element, the index
starting at `s`. -/
def mapWithIdx (f : Nat → α → β) : Nat → List α → List β
  | _, [] => []
  | s, a :: as => f s a :: mapWithIdx f (s + 1) as

/-- Modelled from the spec: the external drawing primitive `cv2.circle`
with thickness −1 (not part of this repository) paints every grid cell
within the given radius of the centre with `color`, leaving the rest of
the grid untouched; cells outside the allocated grid are clipped. -/
def cv2_circle (grid : Mask) (center : Int × Int) (radius : Nat) (color : Nat) : Mask :=
  mapWithIdx (fun i row =>
    mapWithIdx (fun j v => if inDisk center radius i j then color else v) 0 row) 0 grid

/-- Model of `ImageInpaintingTool._create_mask`: a zero mask of the image's spatial
dimensions with a filled circle of 255 drawn at the target coordinates. -/
def _create_mask (image : Image) (target_coords : Int × Int) (radius : Nat) : Mask :=
  cv2_circle (np_zeros image.height image.width) target_coords radius 255

/-- Python's `print(f"Inpainting applied at {target_coords} using '{method}' method.")`
with `target_coords` a pair rendered as `(x, y)`. -/
def inpaintLine (x y : Int) (method : String) : String :=
  "Inpainting applied at (" ++
    (toString x ++ (", " ++ (toString y ++ (") using '" ++ (method ++ "' method.")))))

/-- Result of a call that may raise, mutate the image and print:
`error = some e` models an escaping exception (in which case `image` is
the image as the exception left it). -/
structure CallResult where
  error : Option PyError
  image : Image
  lines : List String
deriving Repr

/-- Model of `ImageInpaintingTool.apply_inpainting`: build the mask, map the method
to a flag (raising `ValueError` on an unknown method, before the image is
touched), replace the image with `cv2.inpaint`'s output, and print the
log line. -/
def apply_inpainting (inpaint : InpaintFn) (image : Image)
    (target_coords : Int × Int) (radius : Nat := 10) (method : String := "telea") :
    CallResult :=
  let mask := _create_mask image target_coords radius
  match _get_inpainting_flags method with
  | .error e => ⟨some e, image, []⟩
  | .ok flags =>
      let image2 := inpaint image mask radius flags
      ⟨none, image2, [inpaintLine target_coords.1 target_coords.2 method]⟩

/-- The OpenCV constant `cv2.EVENT_LBUTTONDOWN`. -/
def EVENT_LBUTTONDOWN : Nat := 1

/-- The OpenCV constant `cv2.EVENT_MOUSEMOVE`. -/
def EVENT_MOUSEMOVE : Nat := 0

/-- The OpenCV constant `cv2.EVENT_LBUTTONUP`. -/
def EVENT_LBUTTONUP : Nat := 4

/-- Python's `print(f"Coordinates received: {click_coords}")`. -/
def coordLine (x y : Int) : String :=
  "Coordinates received: (" ++ (toString x ++ (", " ++ (toString y ++ ")")))

/-- Model of `ImageInpaintingTool._handle_mouse_click`: on a left-button-down event
print the received coordinates and apply inpainting there with the default
radius and method; ignore every other event kind. -/
def _handle_mouse_click (inpaint : InpaintFn) (image : Image)
    (event : Nat) (x y : Int) : CallResult :=
  if event = EVENT_LBUTTONDOWN then
    let click_coords := (x, y)
    let r := apply_inpainting inpaint image click_coords
    ⟨r.error, r.image, coordLine x y :: r.lines⟩
  else
    ⟨none, image, []⟩

/-- Session lifecycle states of §4.4. -/
inductive SessionState where
  | Running
  | Terminated
deriving DecidableEq, Repr

/-- One stimulus delivered to the interactive loop: a `cv2.waitKey` result
for an iteration, or a mouse event dispatched to the registered callback. -/
inductive SessionEvent where
  | key (k : Nat)
  | mouse (event : Nat) (x y : Int)
deriving DecidableEq, Repr

/-- Outcome of the interactive session over a finite stimulus list. -/
structure SessionResult where
  error : Option PyError
  image : Image
  lines : List String
  state : SessionState
  /-- Whether `cv2.destroyAllWindows()` has run. -/
  windowReleased : Bool
deriving Repr

/-- The body of `run_interactive_session`'s `while True` loop, consuming
stimuli in order: a key press equal to ESC (27) after the `& 0xFF`
truncation breaks the loop, releases the windows and prints the closing
line; any other key continues; a mouse event runs the registered
callback `_handle_mouse_click`. -/
def sessionLoop (inpaint : InpaintFn) (image : Image) :
    List SessionEvent → SessionResult
  | [] => ⟨none, image, [], .Running, false⟩
  | .key k :: rest =>
      if k % 256 = 27 then
        ⟨none, image, ["Interactive session ended."], .Terminated, true⟩
      else sessionLoop inpaint image rest
  | .mouse e x y :: rest =>
      let r := _handle_mouse_click inpaint image e x y
      match r.error with
      | some err => ⟨some err, r.image, r.lines, .Running, false⟩
      | none =>
          let res := sessionLoop inpaint r.image rest
          ⟨res.error, res.image, r.lines ++ res.lines, res.state, res.windowReleased⟩

/-- Model of `ImageInpaintingTool.run_interactive_session`: create the window,
register the callback, print the start line, then loop. -/
def run_interactive_session (inpaint : InpaintFn) (image : Image)
    (events : List SessionEvent) : SessionResult :=
  let res := sessionLoop inpaint image events
  { res with lines := "Press ESC to exit." :: res.lines }

/-- The hard-coded startup path of the `__main__` block. -/
def mainImagePath : String := "data/example.png"

/-- The `if __name__ == '__main__'` block: construct the tool (loading the
image), print the success line, run the interactive session; any escaping
exception is caught and its message printed.  Returns the printed lines
and whether an exception escaped to the operating system (it never does:
every `PyError` is an `Exception`, which the bare `except` catches). -/
def pyMain (fs : FileSystem) (inpaint : InpaintFn) (events : List SessionEvent) :
    List String × Bool :=
  match _load_image fs mainImagePath with
  | .error e => ([e.message], false)
  | .ok image =>
      let res := run_interactive_session inpaint image events
      match res.error with
      | some e => ("Image loaded successfully." :: res.lines ++ [e.message], false)
      | none => ("Image loaded successfully." :: res.lines, false)

/-- Number of 255-valued cells in a mask. -/
def count255 (m : Mask) : Nat := (m.map fun row => row.count 255).sum

/-- The error, if any, that the `__main__` block's `except` clause catches
on a given run: a load failure, or an exception escaping the session. -/
def caughtError (fs : FileSystem) (inpaint : InpaintFn) (events : List SessionEvent) :
    Option PyError :=
  match _load_image fs mainImagePath with
  | .error e => some e
  | .ok image => (run_interactive_session inpaint image events).error

/-- A small concrete image used to instantiate theorems. -/
def testImage : Image :=
  ⟨2, 2, [[(1, 2, 3), (4, 5, 6)], [(7, 8, 9), (10, 11, 12)]]⟩

/-- A second concrete image with the same dimensions but different pixels. -/
def testImage2 : Image :=
  ⟨2, 2, [[(0, 0, 0), (0, 0, 0)], [(0, 0, 0), (0, 0, 0)]]⟩

/-- A concrete stand-in for the opaque external inpainting routine. -/
def testInpaint : InpaintFn := fun image _ _ _ => image

/-- A concrete environment in which the startup path decodes to `testImage`. -/
def testFS : FileSystem :=
  ⟨fun p => p == mainImagePath, fun p => if p == mainImagePath then some testImage else none⟩

/-- A concrete environment with no files at all. -/
def emptyFS : FileSystem := ⟨fun _ => false, fun _ => none⟩

/-- A concrete run: one left click at (5, 5), then ESC. -/
def cexEvents : List SessionEvent := [.mouse 1 5 5, .key 27]

/-! ## General lemmas -/

theorem py_lower_telea : py_lower "telea" = "telea" := by decide

theorem take3_append (s t : String) (h : 3 ≤ s.length) :
    (s ++ t).data.take 3 = s.data.take 3 := by
  simp [String.data_append, List.take_append_eq_append_take, Nat.sub_eq_zero_of_le h]

theorem inpaintLine_take3 (x y : Int) (m : String) :
    (inpaintLine x y m).data.take 3 = ['I', 'n', 'p'] := by
  rw [inpaintLine, take3_append _ _ (by decide)]
  decide

theorem coordLine_take3 (x y : Int) :
    (coordLine x y).data.take 3 = ['C', 'o', 'o'] := by
  rw [coordLine, take3_append _ _ (by decide)]
  decide

theorem ne_inpaintLine_of_take3 (s : String) (h : s.data.take 3 ≠ ['I', 'n', 'p'])
    (x y : Int) (m : String) : s ≠ inpaintLine x y m := fun hc => by
  rw [hc, inpaintLine_take3] at h
  exact h rfl

theorem coordLine_ne_inpaintLine (x y x' y' : Int) (m : String) :
    coordLine x y ≠ inpaintLine x' y' m := fun hc => by
  have h := congrArg (fun s => s.data.take 3) hc
  simp only [coordLine_take3, inpaintLine_take3] at h
  exact absurd h (by decide)

/-! ## C1: method validation in `apply_inpainting` -/

/-- C1: invoking inpainting with a method string whose lower-casing is
"telea" or "ns" (covering "telea", "TELEA", "ns", "NS" and every other
case variant) succeeds; with any other string it fails with the
`ValueError` "Invalid method. Choose 'telea' or 'ns'.", leaves the
session's image exactly as it was, and prints nothing. -/
theorem apply_inpainting_method_validation (inpaint : InpaintFn) (image : Image)
    (coords : Int × Int) (radius : Nat) (method : String) :
    ((py_lower method = "telea" ∨ py_lower method = "ns") →
      (apply_inpainting inpaint image coords radius method).error = none) ∧
    (py_lower method ≠ "telea" → py_lower method ≠ "ns" →
      apply_inpainting inpaint image coords radius method =
        ⟨some (.valueError "Invalid method. Choose 'telea' or 'ns'."), image, []⟩) := by
  constructor
  · rintro (h | h) <;> simp [apply_inpainting, _get_inpainting_flags, h]
  · intro h1 h2
    simp [apply_inpainting, _get_inpainting_flags, h1, h2]

/-- Witness for C1: "TELEA" succeeds; "magic" fails with the invalid-method
error and leaves `testImage` untouched. -/
theorem apply_inpainting_method_validation_witness :
    (apply_inpainting testInpaint testImage (1, 1) 10 "TELEA").error = none ∧
    apply_inpainting testInpaint testImage (1, 1) 10 "magic" =
      ⟨some (.valueError "Invalid method. Choose 'telea' or 'ns'."), testImage, []⟩ :=
  ⟨(apply_inpainting_method_validation testInpaint testImage (1, 1) 10 "TELEA").1
      (Or.inl (by decide)),
    (apply_inpainting_method_validation testInpaint testImage (1, 1) 10 "magic").2
      (by decide) (by decide)⟩

/-! ## C2: load contract -/

/-- C2: loading fails with `FileNotFoundError` exactly when the path does
not exist, fails with `ValueError` exactly when the path exists but the
decoder returns nothing, and succeeds exactly when the decoder yields an
image — returning that image (hence its exact dimensions). -/
theorem load_image_contract (fs : FileSystem) (path : String) :
    ((∃ m, _load_image fs path = .error (.fileNotFoundError m)) ↔
      fs.pathExists path = false) ∧
    ((∃ m, _load_image fs path = .error (.valueError m)) ↔
      (fs.pathExists path = true ∧ fs.imread path = none)) ∧
    (∀ image, _load_image fs path = .ok image ↔
      (fs.pathExists path = true ∧ fs.imread path = some image)) := by
  unfold _load_image
  rcases hp : fs.pathExists path
  · simp
  · rcases hi : fs.imread path <;> simp

/-- Witness for C2: a missing path gives `FileNotFoundError`; an
existing undecodable path gives `ValueError`; the test environment's
image loads as itself. -/
theorem load_image_contract_witness :
    (∃ m, _load_image emptyFS "data/example.png" = .error (.fileNotFoundError m)) ∧
    (∃ m, _load_image ⟨fun _ => true, fun _ => none⟩ "junk.png" = .error (.valueError m)) ∧
    _load_image testFS "data/example.png" = .ok testImage :=
  ⟨(load_image_contract emptyFS "data/example.png").1.mpr (by decide),
    (load_image_contract ⟨fun _ => true, fun _ => none⟩ "junk.png").2.1.mpr (by decide),
    ((load_image_contract testFS "data/example.png").2.2 testImage).mpr (by decide)⟩

/-! ## Mask lemmas -/

theorem mapWithIdx_replicate (f : Nat → α → β) (a : α) (n : Nat) :
    ∀ s, mapWithIdx f s (List.replicate n a) = (List.range n).map fun k => f (s + k) a := by
  induction n with
  | zero => intro s; simp [mapWithIdx]
  | succ n ih =>
      intro s
      rw [List.replicate_succ, List.range_succ_eq_map]
      simp only [mapWithIdx, List.map_cons, List.map_map]
      rw [ih (s + 1)]
      simp only [List.cons.injEq]
      constructor
      · rw [Nat.add_zero]
      · apply List.map_congr_left
        intro k _
        show f (s + 1 + k) a = f (s + Nat.succ k) a
        congr 1
        omega

/-- Closed form of `_create_mask`: row i, column j holds 255 exactly inside
the disk, 0 elsewhere. -/
theorem create_mask_eq (image : Image) (c : Int × Int) (r : Nat) :
    _create_mask image c r =
      (List.range image.height).map fun i =>
        (List.range image.width).map fun j =>
          if inDisk c r i j then (255 : Nat) else 0 := by
  unfold _create_mask cv2_circle np_zeros
  rw [mapWithIdx_replicate]
  apply List.map_congr_left
  intro i _
  rw [mapWithIdx_replicate]
  apply List.map_congr_left
  intro j _
  simp

/-! ## C3: mask shape and contents -/

/-- C3: for every coordinate and non-negative radius the mask has exactly
the image's height and width, every value is 0 or 255, and in-bounds cell
(i, j) is 255 exactly when it lies in the filled circle of the given
radius centred at the coordinate (0 elsewhere: the grid starts all-zero). -/
theorem create_mask_shape (image : Image) (c : Int × Int) (r : Nat) :
    (_create_mask image c r).length = image.height ∧
    (∀ row ∈ _create_mask image c r, row.length = image.width) ∧
    (∀ row ∈ _create_mask image c r, ∀ v ∈ row, v = 0 ∨ v = 255) ∧
    (∀ i, i < image.height → ∀ j, j < image.width →
      ((_create_mask image c r).getD i []).getD j 0 =
        if inDisk c r i j then (255 : Nat) else 0) := by
  rw [create_mask_eq]
  refine ⟨by simp, ?_, ?_, ?_⟩
  · intro row hrow
    obtain ⟨i, _, rfl⟩ := List.mem_map.mp hrow
    simp
  · intro row hrow v hv
    obtain ⟨i, _, rfl⟩ := List.mem_map.mp hrow
    obtain ⟨j, _, rfl⟩ := List.mem_map.mp hv
    split
    · right; rfl
    · left; rfl
  · intro i hi j hj
    simp [List.getD_eq_getElem?_getD, List.getElem?_map, List.getElem?_range hi,
      List.getElem?_range hj]

/-- Witness for C3 on `testImage` with centre (0, 0) and radius 1. -/
theorem create_mask_shape_witness :
    ([255, 255] : List Nat).length = testImage.width ∧
    ((255 : Nat) = 0 ∨ (255 : Nat) = 255) ∧
    ((_create_mask testImage (0, 0) 1).getD 1 []).getD 1 0 =
      if inDisk (0, 0) 1 1 1 then (255 : Nat) else 0 :=
  ⟨(create_mask_shape testImage (0, 0) 1).2.1 [255, 255] (by decide),
    (create_mask_shape testImage (0, 0) 1).2.2.1 [255, 255] (by decide) 255 (by decide),
    (create_mask_shape testImage (0, 0) 1).2.2.2 1 (by decide) 1 (by decide)⟩

/-! ## C4: 255-count is monotone in the radius -/

theorem inDisk_mono (c : Int × Int) {r1 r2 : Nat} (h : r1 ≤ r2) (i j : Nat) :
    inDisk c r1 i j = true → inDisk c r2 i j = true := by
  simp only [inDisk, decide_eq_true_eq]
  intro hle
  refine le_trans hle ?_
  exact pow_le_pow_left₀ (Int.natCast_nonneg r1) (Int.ofNat_le.mpr h) 2

/-- C4: for a fixed coordinate and fixed image dimensions the number of
255-valued mask cells is non-decreasing in the radius. -/
theorem mask_count_monotone (image : Image) (c : Int × Int) (r1 r2 : Nat) (h : r1 ≤ r2) :
    count255 (_create_mask image c r1) ≤ count255 (_create_mask image c r2) := by
  rw [count255, count255, create_mask_eq, create_mask_eq, List.map_map, List.map_map]
  apply List.sum_le_sum
  intro i _
  simp only [Function.comp_apply]
  rw [List.count_eq_countP, List.count_eq_countP, List.countP_map, List.countP_map]
  apply List.countP_mono_left
  intro j _ hj
  simp only [Function.comp_apply] at hj ⊢
  rcases hd : inDisk c r1 i j with _ | _
  · rw [hd] at hj
    simp at hj
  · rw [inDisk_mono c h i j hd]
    simp

/-- Witness for C4: radius 0 versus radius 1 on `testImage`. -/
theorem mask_count_monotone_witness :
    count255 (_create_mask testImage (0, 0) 0) ≤ count255 (_create_mask testImage (0, 0) 1) :=
  mask_count_monotone testImage (0, 0) 0 1 (by decide)

/-! ## C9: the mask builder is total and deterministic -/

/-- C9: the mask builder never fails (it is a total function, also at
out-of-bounds coordinates, where the circle is clipped) and is
deterministic: it depends only on the image's dimensions, the coordinate
and the radius. -/
theorem create_mask_deterministic (img1 img2 : Image) (c : Int × Int) (r : Nat)
    (h1 : img1.height = img2.height) (h2 : img1.width = img2.width) :
    _create_mask img1 c r = _create_mask img2 c r := by
  unfold _create_mask np_zeros
  rw [h1, h2]

/-- Witness for C9: two images with equal dimensions and different pixels,
at an out-of-bounds coordinate. -/
theorem create_mask_deterministic_witness :
    _create_mask testImage (-5, 100) 3 = _create_mask testImage2 (-5, 100) 3 :=
  create_mask_deterministic testImage testImage2 (-5, 100) 3 (by decide) (by decide)

/-! ## Click handler lemmas -/

theorem apply_inpainting_telea (inpaint : InpaintFn) (image : Image) (x y : Int) :
    apply_inpainting inpaint image (x, y) =
      ⟨none, inpaint image (_create_mask image (x, y) 10) 10 .INPAINT_TELEA,
        [inpaintLine x y "telea"]⟩ := by
  simp [apply_inpainting, _get_inpainting_flags, py_lower_telea]

theorem handle_mouse_click_eq (inpaint : InpaintFn) (image : Image) (e : Nat) (x y : Int) :
    _handle_mouse_click inpaint image e x y =
      if e = EVENT_LBUTTONDOWN then
        ⟨none, inpaint image (_create_mask image (x, y) 10) 10 .INPAINT_TELEA,
          [coordLine x y, inpaintLine x y "telea"]⟩
      else ⟨none, image, []⟩ := by
  simp only [_handle_mouse_click, apply_inpainting_telea]

/-! ## C5: a left click forwards its coordinate with the defaults -/

/-- C5: on a left-button-down event at (x, y) the handler forwards exactly
(x, y) to `apply_inpainting` with radius 10 and method "telea" (the
resulting image and error are exactly that call's), and the click's output
contains exactly one line of the form
"Inpainting applied at (x, y) using 'telea' method.". -/
theorem handle_click_forwards (inpaint : InpaintFn) (image : Image) (x y : Int) :
    _handle_mouse_click inpaint image EVENT_LBUTTONDOWN x y =
      ⟨(apply_inpainting inpaint image (x, y) 10 "telea").error,
        (apply_inpainting inpaint image (x, y) 10 "telea").image,
        coordLine x y :: (apply_inpainting inpaint image (x, y) 10 "telea").lines⟩ ∧
    (_handle_mouse_click inpaint image EVENT_LBUTTONDOWN x y).error = none ∧
    (_handle_mouse_click inpaint image EVENT_LBUTTONDOWN x y).lines.count
        (inpaintLine x y "telea") = 1 := by
  refine ⟨by simp [_handle_mouse_click], ?_, ?_⟩
  · rw [handle_mouse_click_eq]
    simp
  · rw [handle_mouse_click_eq]
    simp [List.count_cons, coordLine_ne_inpaintLine x y x y "telea"]

/-! ## C10: every other mouse event is ignored -/

/-- C10: any mouse event that is not a left-button press leaves the image
unchanged, invokes no inpainting (no error is possible), and prints
nothing. -/
theorem non_left_click_ignored (inpaint : InpaintFn) (image : Image) (e : Nat) (x y : Int)
    (h : e ≠ EVENT_LBUTTONDOWN) :
    _handle_mouse_click inpaint image e x y = ⟨none, image, []⟩ := by
  simp [_handle_mouse_click, h]

/-- Witness for C10: a mouse-move event is ignored. -/
theorem non_left_click_ignored_witness :
    _handle_mouse_click testInpaint testImage EVENT_MOUSEMOVE 3 4 = ⟨none, testImage, []⟩ :=
  non_left_click_ignored testInpaint testImage EVENT_MOUSEMOVE 3 4 (by decide)

/-! ## C6: ESC immediately terminates the session -/

/-- C6: if the first stimulus is the ESC key, the session ends in the
`Terminated` state with the window released, printing exactly the start
line and "Interactive session ended.", with no inpaint log line; the
image is untouched and any later stimuli are never processed. -/
theorem esc_terminates (inpaint : InpaintFn) (image : Image) (rest : List SessionEvent) :
    run_interactive_session inpaint image (.key 27 :: rest) =
      ⟨none, image, ["Press ESC to exit.", "Interactive session ended."],
        .Terminated, true⟩ ∧
    ∀ x y m, inpaintLine x y m ∉
      (run_interactive_session inpaint image (.key 27 :: rest)).lines := by
  have h1 : run_interactive_session inpaint image (.key 27 :: rest) =
      ⟨none, image, ["Press ESC to exit.", "Interactive session ended."],
        .Terminated, true⟩ := by
    simp [run_interactive_session, sessionLoop]
  refine ⟨h1, ?_⟩
  intro x y m hmem
  rw [h1] at hmem
  simp only [List.mem_cons, List.not_mem_nil, or_false] at hmem
  rcases hmem with h | h
  · exact ne_inpaintLine_of_take3 _ (by decide) x y m h.symm
  · exact ne_inpaintLine_of_take3 _ (by decide) x y m h.symm

/-- Witness for C6: the concrete run whose only stimulus is ESC. -/
theorem esc_terminates_witness :
    run_interactive_session testInpaint testImage [.key 27] =
      ⟨none, testImage, ["Press ESC to exit.", "Interactive session ended."],
        .Terminated, true⟩ ∧
    inpaintLine 5 5 "telea" ∉
      (run_interactive_session testInpaint testImage [.key 27]).lines :=
  ⟨(esc_terminates testInpaint testImage []).1,
    (esc_terminates testInpaint testImage []).2 5 5 "telea"⟩

/-! ## C7: the entry point catches every raised error kind -/

/-- C7: the `__main__` block never lets an exception escape to the
operating system, and whenever the run raises one of the error kinds — a
load failure (`PathNotFound` / `ImageDecodeFailure`) or an error escaping
the interactive session (`InvalidMethod`) — its message is printed. -/
theorem main_catches_errors (fs : FileSystem) (inpaint : InpaintFn)
    (events : List SessionEvent) :
    (pyMain fs inpaint events).2 = false ∧
    (∀ e, _load_image fs mainImagePath = .error e →
      e.message ∈ (pyMain fs inpaint events).1) ∧
    (∀ image e, _load_image fs mainImagePath = .ok image →
      (run_interactive_session inpaint image events).error = some e →
      e.message ∈ (pyMain fs inpaint events).1) := by
  rcases h : _load_image fs mainImagePath with e | img
  · refine ⟨by simp [pyMain, h], ?_, ?_⟩
    · intro e' he'
      obtain rfl : e = e' := by injection he'
      simp [pyMain, h]
    · intro image e' himg _
      exact Except.noConfusion himg
  · refine ⟨?_, ?_, ?_⟩
    · rcases he : (run_interactive_session inpaint img events).error <;>
        simp [pyMain, h, he]
    · intro e' he'
      exact Except.noConfusion he'
    · intro image e' himg he'
      obtain rfl : img = image := by injection himg
      simp [pyMain, h, he']

/-- Witness for C7: with no file at the startup path the run exits
cleanly and prints the not-found message. -/
theorem main_catches_errors_witness :
    (pyMain emptyFS testInpaint []).2 = false ∧
    PyError.message
        (.fileNotFoundError "Error: The image path 'data/example.png' does not exist.") ∈
      (pyMain emptyFS testInpaint []).1 :=
  ⟨(main_catches_errors emptyFS testInpaint []).1,
    (main_catches_errors emptyFS testInpaint []).2.1
      (.fileNotFoundError "Error: The image path 'data/example.png' does not exist.")
      rfl⟩

/-! ## C8: classification of every printed line -/

theorem sessionLoop_lines (inpaint : InpaintFn) (events : List SessionEvent) :
    ∀ (image : Image), ∀ l ∈ (sessionLoop inpaint image events).lines,
      l = "Interactive session ended." ∨ (∃ x y m, l = inpaintLine x y m) ∨
      ∃ x y, l = coordLine x y := by
  induction events with
  | nil =>
      intro image l hl
      simp [sessionLoop] at hl
  | cons ev rest ih =>
      intro image l hl
      match ev with
      | .key k =>
          rw [sessionLoop] at hl
          by_cases hk : k % 256 = 27
          · rw [if_pos hk] at hl
            simp only [List.mem_singleton] at hl
            exact Or.inl hl
          · rw [if_neg hk] at hl
            exact ih image l hl
      | .mouse e x y =>
          rw [sessionLoop] at hl
          by_cases he : e = EVENT_LBUTTONDOWN
          · simp only [handle_mouse_click_eq, if_pos he] at hl
            simp only [List.cons_append, List.nil_append, List.mem_cons] at hl
            rcases hl with rfl | rfl | hl
            · exact Or.inr (Or.inr ⟨x, y, rfl⟩)
            · exact Or.inr (Or.inl ⟨x, y, "telea", rfl⟩)
            · exact ih _ l hl
          · simp only [handle_mouse_click_eq, if_neg he] at hl
            simp only [List.nil_append] at hl
            exact ih _ l hl

/-- The output line every primary-button press adds beyond the lines the
specification enumerates: the concrete run loads the test image, clicks
once at (5, 5) and exits, and its output contains
"Coordinates received: (5, 5)", which is none of the enumerated lines. -/
theorem output_claim_counterexample :
    ¬ (∀ l ∈ (pyMain testFS testInpaint cexEvents).1,
        l = "Image loaded successfully." ∨ l = "Press ESC to exit." ∨
        l = "Interactive session ended." ∨ (∃ x y m, l = inpaintLine x y m) ∨
        (∃ e, caughtError testFS testInpaint cexEvents = some e ∧ l = e.message)) := by
  intro h
  have hmem : coordLine 5 5 ∈ (pyMain testFS testInpaint cexEvents).1 := by decide
  rcases h _ hmem with h1 | h1 | h1 | ⟨x, y, m, h1⟩ | ⟨e, he, h1⟩
  · exact absurd h1 (by decide)
  · exact absurd h1 (by decide)
  · exact absurd h1 (by decide)
  · exact coordLine_ne_inpaintLine 5 5 x y m h1
  · have hce : caughtError testFS testInpaint cexEvents = none := by decide
    rw [hce] at he
    exact Option.noConfusion he

/-- C8 as amended: every printed line is one of the enumerated
informational lines, a per-click "Coordinates received: (x, y)" line, or
the message of the error the run caught. -/
theorem output_lines_enumerated (fs : FileSystem) (inpaint : InpaintFn)
    (events : List SessionEvent) :
    ∀ l ∈ (pyMain fs inpaint events).1,
      l = "Image loaded successfully." ∨ l = "Press ESC to exit." ∨
      l = "Interactive session ended." ∨ (∃ x y m, l = inpaintLine x y m) ∨
      (∃ x y, l = coordLine x y) ∨
      (∃ e, caughtError fs inpaint events = some e ∧ l = e.message) := by
  intro l hl
  rcases h : _load_image fs mainImagePath with e | img
  · simp only [pyMain, h, List.mem_singleton] at hl
    exact Or.inr (Or.inr (Or.inr (Or.inr (Or.inr ⟨e, by simp [caughtError, h], hl⟩))))
  · rcases he : (run_interactive_session inpaint img events).error with _ | e
    · simp only [pyMain, h, he, List.mem_cons] at hl
      rcases hl with rfl | hl
      · exact Or.inl rfl
      · simp only [run_interactive_session, List.mem_cons] at hl
        rcases hl with rfl | hl
        · exact Or.inr (Or.inl rfl)
        · rcases sessionLoop_lines inpaint events img l hl with h1 | h1 | h1
          · exact Or.inr (Or.inr (Or.inl h1))
          · exact Or.inr (Or.inr (Or.inr (Or.inl h1)))
          · exact Or.inr (Or.inr (Or.inr (Or.inr (Or.inl h1))))
    · simp only [pyMain, h, he, List.mem_cons, List.mem_append,
        List.mem_singleton, List.not_mem_nil, or_false] at hl
      rcases hl with (rfl | hl) | rfl
      · exact Or.inl rfl
      · simp only [run_interactive_session, List.mem_cons] at hl
        rcases hl with rfl | hl
        · exact Or.inr (Or.inl rfl)
        · rcases sessionLoop_lines inpaint events img l hl with h1 | h1 | h1
          · exact Or.inr (Or.inr (Or.inl h1))
          · exact Or.inr (Or.inr (Or.inr (Or.inl h1)))
          · exact Or.inr (Or.inr (Or.inr (Or.inr (Or.inl h1))))
      · exact Or.inr (Or.inr (Or.inr (Or.inr (Or.inr
          ⟨e, by simp [caughtError, h, he], rfl⟩))))

/-- Witness for the amended C8 at the coordinate line of the concrete run. -/
theorem output_lines_enumerated_witness :
    coordLine 5 5 = "Image loaded successfully." ∨
    coordLine 5 5 = "Press ESC to exit." ∨
    coordLine 5 5 = "Interactive session ended." ∨
    (∃ x y m, coordLine 5 5 = inpaintLine x y m) ∨
    (∃ x y, coordLine 5 5 = coordLine x y) ∨
    (∃ e, caughtError testFS testInpaint cexEvents = some e ∧
      coordLine 5 5 = PyError.message e) :=
  output_lines_enumerated testFS testInpaint cexEvents (coordLine 5 5) (by decide)

end InpaintingTool
